import Mathlib

/-!
# MoonBox-C, `src/screen.c`: the Lua binding of the screen

A shallow embedding of `screen.c`.  Every function of the file becomes a
function on an explicit state made of

* the global `window` record (`Window`), and
* the part of the rendering library the file talks to (`Sdl`): the live
  textures with their sizes, the current render target, draw colour and
  scale of the renderer, and the chronological list of library calls made.

Conventions.

* A Lua integer argument is an `Int`.  Storing it in a C `int` is `toInt`
  (reduction to the 32-bit two's-complement range), passing an `int` for a
  `Uint8` parameter is `toUint8`, for a `float` parameter `toFloat`.
* A pointer is a `Ptr`; `none` is the null pointer.
* Whether a creation call of the library succeeds is not decided by
  `screen.c`; it is an argument of the embedded function.
* A function returns `Except Fault (State × List LuaValue)`: the state on
  return and the values pushed for Lua, or the reason it did not return.
* The arguments of a call have the Lua types the function asks for; a call
  that raises a Lua argument error is not modelled.  `run`, `session` and
  `Reachable` are about sequences of calls that all return.
-/

namespace MoonBox

deriving instance DecidableEq for Except

/-! ## Machine integers -/

/-- Value of a Lua integer (or of an `int` sum) once stored in a 32-bit C `int`. -/
def toInt (v : Int) : Int := (v + 2147483648) % 4294967296 - 2147483648

/-- Value of an `int` once passed for a `Uint8` parameter. -/
def toUint8 (v : Int) : Int := v % 256

/-- Number of low bits that an `int` of magnitude `n` loses in a `float`, whose
significand has 24 bits. -/
def floatShift (n : Nat) : Nat :=
  ((List.range 8).filter (fun k => 2 ^ (24 + k) ≤ n)).length

/-- Value of an `int` once passed for a `float` parameter: the nearest value
with a 24-bit significand, ties to even.  It is the `int` itself up to
magnitude 2^24. -/
def toFloat (v : Int) : Int :=
  let n := v.natAbs
  let e := floatShift n
  let q := n / 2 ^ e
  let r := n % 2 ^ e
  let up := decide (2 ^ e < 2 * r) || (decide (2 * r = 2 ^ e) && decide (q % 2 = 1))
  Int.sign v * (((if up then q + 1 else q) * 2 ^ e : Nat) : Int)

/-- C division of two `int`s: truncation towards zero. -/
def cdiv (a b : Int) : Int := Int.tdiv a b

/-! ## Data model -/

/-- Pointer to a library object; `none` is `NULL`. -/
abbrev Ptr := Option Nat

/-- The library's rectangle of four `int`s. -/
structure SDL_Rect where
  x : Int
  y : Int
  w : Int
  h : Int
deriving DecidableEq, Repr

/-- Modelled from the spec: the "bitmap font resource" of the window record.
Its type is declared in `font.h`, which is not part of the sources; only its
identity is used here. -/
structure Font where
  id : Nat
deriving DecidableEq, Repr

/-- A live texture of the library: its address and its size. -/
structure Texture where
  id : Nat
  w : Int
  h : Int
deriving DecidableEq, Repr

/-- One call into the rendering library or the font module, with the
arguments received and, for the calls whose result is used, the result. -/
inductive Call where
  | SDL_CreateWindow (w h : Int) (ret : Ptr)
  | SDL_CreateRenderer (window : Ptr) (ret : Ptr)
  | SDL_CreateTexture (renderer : Ptr) (w h : Int) (ret : Ptr)
  | SDL_QueryTexture (texture : Ptr)
  | SDL_DestroyTexture (texture : Ptr)
  | SDL_SetRenderTarget (renderer : Ptr) (texture : Ptr)
  | SDL_RenderCopy (renderer : Ptr) (texture : Ptr) (srcrect dstrect : SDL_Rect)
  | SDL_RenderPresent (renderer : Ptr)
  | SDL_RenderSetScale (renderer : Ptr) (scaleX scaleY : Int)
  | SDL_SetRenderDrawColor (renderer : Ptr) (r g b a : Int)
  | SDL_RenderDrawPoint (renderer : Ptr) (x y : Int)
  | SDL_RenderFillRect (renderer : Ptr) (rect : SDL_Rect)
  | SDL_RenderDrawRect (renderer : Ptr) (rect : SDL_Rect)
  | SDL_RenderClear (renderer : Ptr)
  | font_char (font : Font) (renderer : Ptr) (x y : Int) (c : UInt8) (ret : Int)
  | font_load (renderer : Ptr) (ret : Font)
deriving DecidableEq

/-- The rendering library as seen from `screen.c`. -/
structure Sdl where
  /-- live textures -/
  textures : List Texture
  /-- current render target of the renderer; `none` is the window -/
  target : Ptr
  /-- current draw colour `(r, g, b, a)` -/
  drawColor : Int × Int × Int × Int
  /-- current render scale: two `float`s, which are whole numbers here -/
  scale : Int × Int
  /-- every call made so far, oldest first -/
  calls : List Call
deriving DecidableEq

/-- Modelled from the spec: the global `window` record is declared in
`screen.h`, which is not part of the sources.  Section 3: "window geometry
(position, width, height), an integer render scale, and handles to a display
surface, a renderer, a render target texture, and a bitmap font resource".
The fields are the ones `screen.c` uses; `scale` is a C `int`. -/
structure Window where
  window : Ptr
  renderer : Ptr
  texture : Ptr
  rect : SDL_Rect
  scale : Int
  font : Font
deriving DecidableEq

/-- Program state: the global record and the library. -/
structure State where
  window : Window
  sdl : Sdl
deriving DecidableEq

/-- A value handed back to Lua. -/
inductive LuaValue where
  | integer (n : Int)
  /-- the module table built by `luaopen_screen` -/
  | table
deriving DecidableEq, Repr

/-- Why a function did not return. -/
inductive Fault where
  /-- the process was aborted by `checkSDL`, in the given state -/
  | fatal (s : State)
  /-- behaviour undefined in C: division by zero or `INT_MIN / -1`, or the
  size of a texture that is not live was read -/
  | undefined
deriving DecidableEq

/-- Result of one exposed function. -/
abbrev Result := Except Fault (State × List LuaValue)

/-- State before the module is loaded: the zero-initialised global and a
library without textures. -/
def State.init : State :=
  { window := { window := none, renderer := none, texture := none,
                rect := ⟨0, 0, 0, 0⟩, scale := 0, font := ⟨0⟩ },
    sdl := { textures := [], target := none, drawColor := (0, 0, 0, 0),
             scale := (1, 1), calls := [] } }

/-! ## The library calls used by `screen.c` -/

/-- Record a call. -/
def Sdl.log (sdl : Sdl) (c : Call) : Sdl := { sdl with calls := sdl.calls ++ [c] }

/-- Size of a live texture. -/
def Sdl.sizeOf (sdl : Sdl) (t : Nat) : Option (Int × Int) :=
  (sdl.textures.find? (fun e => e.id == t)).map (fun e => (e.w, e.h))

/-- An address that no live texture has. -/
def Sdl.fresh (sdl : Sdl) : Nat := (sdl.textures.map Texture.id).foldr max 0 + 1

/-- The call returns the pointer `ret` chosen by the library. -/
def SDL_CreateWindow (sdl : Sdl) (w h : Int) (ret : Ptr) : Sdl × Ptr :=
  (sdl.log (.SDL_CreateWindow w h ret), ret)

/-- The call returns the pointer `ret` chosen by the library. -/
def SDL_CreateRenderer (sdl : Sdl) (window : Ptr) (ret : Ptr) : Sdl × Ptr :=
  (sdl.log (.SDL_CreateRenderer window ret), ret)

/-- When the library succeeds (`succeeds`), a texture of the size asked for
comes to life at a fresh address; otherwise the result is `NULL`. -/
def SDL_CreateTexture (sdl : Sdl) (renderer : Ptr) (w h : Int) (succeeds : Bool) :
    Sdl × Ptr :=
  if succeeds then
    let t := sdl.fresh
    ({ sdl with textures := sdl.textures ++ [⟨t, w, h⟩],
                calls := sdl.calls ++ [.SDL_CreateTexture renderer w h (some t)] },
     some t)
  else
    (sdl.log (.SDL_CreateTexture renderer w h none), none)

/-- Width and height of a texture; nothing is written for a texture that
is not live. -/
def SDL_QueryTexture (sdl : Sdl) (texture : Ptr) : Sdl × Option (Int × Int) :=
  (sdl.log (.SDL_QueryTexture texture), texture.bind sdl.sizeOf)

/-- The texture stops being live; a renderer targeting it falls back to the window. -/
def SDL_DestroyTexture (sdl : Sdl) (texture : Ptr) : Sdl :=
  match texture with
  | none => sdl.log (.SDL_DestroyTexture none)
  | some t =>
    { sdl with textures := sdl.textures.filter (fun e => e.id != t),
               target := if sdl.target = some t then none else sdl.target,
               calls := sdl.calls ++ [.SDL_DestroyTexture (some t)] }

/-- Select the render target; `NULL` selects the window. -/
def SDL_SetRenderTarget (sdl : Sdl) (renderer texture : Ptr) : Sdl :=
  { sdl with target := texture, calls := sdl.calls ++ [.SDL_SetRenderTarget renderer texture] }

/-- Blit; the pixels themselves are not modelled. -/
def SDL_RenderCopy (sdl : Sdl) (renderer texture : Ptr) (srcrect dstrect : SDL_Rect) : Sdl :=
  sdl.log (.SDL_RenderCopy renderer texture srcrect dstrect)

/-- Show the window's back buffer. -/
def SDL_RenderPresent (sdl : Sdl) (renderer : Ptr) : Sdl :=
  sdl.log (.SDL_RenderPresent renderer)

/-- Set the render scale; the two parameters are `float`. -/
def SDL_RenderSetScale (sdl : Sdl) (renderer : Ptr) (scaleX scaleY : Int) : Sdl :=
  { sdl with scale := (toFloat scaleX, toFloat scaleY),
             calls := sdl.calls ++
               [.SDL_RenderSetScale renderer (toFloat scaleX) (toFloat scaleY)] }

/-- Set the draw colour; the four parameters are `Uint8`. -/
def SDL_SetRenderDrawColor (sdl : Sdl) (renderer : Ptr) (r g b a : Int) : Sdl :=
  { sdl with drawColor := (toUint8 r, toUint8 g, toUint8 b, toUint8 a),
             calls := sdl.calls ++
               [.SDL_SetRenderDrawColor renderer (toUint8 r) (toUint8 g) (toUint8 b) (toUint8 a)] }

/-- Modelled from the spec: `checkSDL` comes from `util.h`, which is not part
of the sources.  Section 7: a failed creation is "treated as fatal (process
aborts with a diagnostic)"; a non-null pointer lets the caller go on. -/
def checkSDL (s : State) (p : Ptr) : Except Fault Unit :=
  match p with
  | none => .error (.fatal s)
  | some _ => .ok ()

/-- Modelled from the spec: `font_char` belongs to the "bitmap-font loader",
which the spec leaves out and whose source is absent.  It is a parameter:
the advance it returns for a font, a position and a character. -/
abbrev FontChar := Font → Int → Int → UInt8 → Int

/-- A call of `font_char`: it draws with the renderer and returns the advance. -/
def font_char (fc : FontChar) (sdl : Sdl) (font : Font) (renderer : Ptr) (x y : Int)
    (c : UInt8) : Sdl × Int :=
  (sdl.log (.font_char font renderer x y c (fc font x y c)), fc font x y c)

/-- A call of `font_load`: the font it returns is chosen by the font module. -/
def font_load (sdl : Sdl) (renderer : Ptr) (ret : Font) : Sdl × Font :=
  (sdl.log (.font_load renderer ret), ret)

/-! ## The functions of `screen.c` -/

/-- `window.rect.w / window.scale`, pushed as one integer. -/
def screen_getWidth (s : State) : Result :=
  if s.window.scale = 0 ∨ (s.window.rect.w = -2147483648 ∧ s.window.scale = -1) then
    .error .undefined
  else
    .ok (s, [.integer (cdiv s.window.rect.w s.window.scale)])

/-- `window.rect.h / window.scale`, pushed as one integer. -/
def screen_getHeight (s : State) : Result :=
  if s.window.scale = 0 ∨ (s.window.rect.h = -2147483648 ∧ s.window.scale = -1) then
    .error .undefined
  else
    .ok (s, [.integer (cdiv s.window.rect.h s.window.scale)])

/-- Pushes `window.scale`. -/
def screen_getScale (s : State) : Result :=
  .ok (s, [.integer s.window.scale])

/-- `window.scale = luaL_checkinteger(L, 1)`. -/
def screen_setScale (s : State) (arg1 : Int) : Result :=
  .ok ({ s with window := { s.window with scale := toInt arg1 } }, [])

/-- Sets the draw colour; arguments 2 to 4 are optional (`none`: absent or nil). -/
def screen_colour (s : State) (arg1 : Int) (arg2 arg3 arg4 : Option Int) : Result :=
  let r := toInt arg1
  let g := toInt (arg2.getD r)
  let b := toInt (arg3.getD r)
  let a := toInt (arg4.getD 255)
  .ok ({ s with sdl := SDL_SetRenderDrawColor s.sdl s.window.renderer r g b a }, [])

/-- Draws one point. -/
def screen_pixel (s : State) (arg1 arg2 : Int) : Result :=
  let x := toInt arg1
  let y := toInt arg2
  .ok ({ s with sdl := s.sdl.log (.SDL_RenderDrawPoint s.window.renderer x y) }, [])

/-- Draws a rectangle, filled when the fifth argument is true. -/
def screen_rect (s : State) (arg1 arg2 arg3 arg4 : Int) (fill : Bool) : Result :=
  let rect : SDL_Rect := ⟨toInt arg1, toInt arg2, toInt arg3, toInt arg4⟩
  if fill then
    .ok ({ s with sdl := s.sdl.log (.SDL_RenderFillRect s.window.renderer rect) }, [])
  else
    .ok ({ s with sdl := s.sdl.log (.SDL_RenderDrawRect s.window.renderer rect) }, [])

/-- Clears with the current colour. -/
def screen_clear (s : State) : Result :=
  .ok ({ s with sdl := s.sdl.log (.SDL_RenderClear s.window.renderer) }, [])

/-- Draws `str[0]`; for the empty string that is the terminating zero. -/
def screen_char (fc : FontChar) (s : State) (str : List UInt8) (arg2 arg3 : Int) : Result :=
  let x := toInt arg2
  let y := toInt arg3
  .ok ({ s with sdl := (font_char fc s.sdl s.window.font s.window.renderer x y (str.headD 0)).1 },
       [])

/-- The loop of `screen_write` over the characters still to draw: `rect.x = x`,
`rect.y = y`, `x += font_char(...)`. -/
def screen_write.loop (fc : FontChar) (font : Font) (renderer : Ptr) (y : Int) :
    List UInt8 → Int → Sdl → Sdl
  | [], _, sdl => sdl
  | c :: rest, x, sdl =>
    let r := font_char fc sdl font renderer x y c
    screen_write.loop fc font renderer y rest (toInt (x + r.2)) r.1

/-- Draws the first `n` characters of the string, each at the position the
previous one advanced to.  `n` is the length of the string held in an `int`;
the loop `for(int i = 0; i < n; i++)` runs over `str[0] .. str[n-1]` and not
at all when `n` is not positive.  `x` is an `int` as well, so the sum is kept
in the `int` range. -/
def screen_write (fc : FontChar) (s : State) (str : List UInt8) (arg2 arg3 : Int) : Result :=
  /- Get string length -/
  let n := toInt str.length
  /- Set initial position rect -/
  let x := toInt arg2
  let y := toInt arg3
  /- Draw characters -/
  .ok ({ s with sdl := screen_write.loop fc s.window.font s.window.renderer y
                        (str.take n.toNat) x s.sdl }, [])

/-- `window.font = font_load(L, window.renderer)`. -/
def screen_loadFont (s : State) (loaded : Font) : Result :=
  let r := font_load s.sdl s.window.renderer loaded
  .ok ({ window := { s.window with font := r.2 }, sdl := r.1 }, [])

/-- Resizes the canvas.  The first Lua argument is ignored; `succeeds` tells
whether the library creates the new texture. -/
def screen_resize (s : State) (arg2 arg3 : Int) (succeeds : Bool) : Result :=
  let w1 : Window := { s.window with rect := { s.window.rect with w := toInt arg2, h := toInt arg3 } }
  /- Create a new texture -/
  let r := SDL_CreateTexture s.sdl w1.renderer w1.rect.w w1.rect.h succeeds
  let newtexture := r.2
  match checkSDL ⟨w1, r.1⟩ w1.texture with
  | .error e => .error e
  | .ok _ =>
    /- Set the source and destination rect -/
    let q := SDL_QueryTexture r.1 w1.texture
    match q.2 with
    | none => .error .undefined
    | some (tw, th) =>
      let rect : SDL_Rect :=
        ⟨0, 0, if w1.rect.w < tw then w1.rect.w else tw, if w1.rect.h < th then w1.rect.h else th⟩
      /- Copy over texture data -/
      let sdl := SDL_SetRenderTarget q.1 w1.renderer newtexture
      let sdl := SDL_RenderCopy sdl w1.renderer w1.texture rect rect
      let sdl := SDL_SetRenderTarget sdl w1.renderer none
      let sdl := SDL_DestroyTexture sdl w1.texture
      .ok ({ window := { w1 with texture := newtexture }, sdl := sdl }, [])

/-- Presents the buffer on screen. -/
def screen_present (s : State) : Result :=
  /- Display -/
  let sdl := SDL_SetRenderTarget s.sdl s.window.renderer none
  let sdl := SDL_RenderCopy sdl s.window.renderer s.window.texture s.window.rect s.window.rect
  let sdl := SDL_RenderPresent sdl s.window.renderer
  /- Reset render target and set scale -/
  let sdl := SDL_SetRenderTarget sdl s.window.renderer s.window.texture
  let sdl := SDL_RenderSetScale sdl s.window.renderer s.window.scale s.window.scale
  .ok ({ s with sdl := sdl }, [])

/-- Loads the module.  `win` and `rend` are the pointers the library returns
for the window and the renderer, `succeeds` tells whether it creates the
texture. -/
def luaopen_screen (s : State) (win rend : Ptr) (succeeds : Bool) : Result :=
  /- Init -/
  let w1 : Window := { s.window with rect := ⟨0, 0, 600, 400⟩, scale := 2 }
  /- Create window -/
  let r := SDL_CreateWindow s.sdl w1.rect.w w1.rect.h win
  let w2 : Window := { w1 with window := r.2 }
  match checkSDL ⟨w2, r.1⟩ w2.window with
  | .error e => .error e
  | .ok _ =>
    /- Create renderer -/
    let r := SDL_CreateRenderer r.1 w2.window rend
    let w3 : Window := { w2 with renderer := r.2 }
    match checkSDL ⟨w3, r.1⟩ w3.renderer with
    | .error e => .error e
    | .ok _ =>
      /- Create texture -/
      let r := SDL_CreateTexture r.1 w3.renderer w3.rect.w w3.rect.h succeeds
      let w4 : Window := { w3 with texture := r.2 }
      match checkSDL ⟨w4, r.1⟩ w4.texture with
      | .error e => .error e
      | .ok _ =>
        /- Set default colour to white -/
        let sdl := SDL_SetRenderDrawColor r.1 w4.renderer 255 255 255 255
        .ok (⟨w4, sdl⟩, [.table])

/-! ## Sessions: the module is loaded, then Lua calls the exposed functions -/

/-- One call from Lua of a function of the module, with its arguments and
the choices of the library and the font module.  The table `screen` of the
exposed functions is declared in `screen.h`, which is not part of the
sources: every function that `screen.c` defines for Lua is taken to be in it. -/
inductive Op where
  | getWidth
  | getHeight
  | getScale
  | setScale (arg1 : Int)
  | colour (arg1 : Int) (arg2 arg3 arg4 : Option Int)
  | pixel (arg1 arg2 : Int)
  | rect (arg1 arg2 arg3 arg4 : Int) (fill : Bool)
  | clear
  | char (str : List UInt8) (arg2 arg3 : Int)
  | write (str : List UInt8) (arg2 arg3 : Int)
  | loadFont (loaded : Font)
  | resize (arg2 arg3 : Int) (succeeds : Bool)
  | present
deriving DecidableEq

/-- Run one call. -/
def step (fc : FontChar) (s : State) : Op → Result
  | .getWidth => screen_getWidth s
  | .getHeight => screen_getHeight s
  | .getScale => screen_getScale s
  | .setScale a => screen_setScale s a
  | .colour r g b a => screen_colour s r g b a
  | .pixel x y => screen_pixel s x y
  | .rect x y w h fill => screen_rect s x y w h fill
  | .clear => screen_clear s
  | .char str x y => screen_char fc s str x y
  | .write str x y => screen_write fc s str x y
  | .loadFont f => screen_loadFont s f
  | .resize w h ok => screen_resize s w h ok
  | .present => screen_present s

/-- Run a sequence of calls; it stops at the first one that does not return. -/
def run (fc : FontChar) (s : State) : List Op → Except Fault State
  | [] => .ok s
  | op :: ops =>
    match step fc s op with
    | .ok r => run fc r.1 ops
    | .error e => .error e

/-- Load the module in the initial state, then run a sequence of calls. -/
def session (fc : FontChar) (win rend : Ptr) (succeeds : Bool) (ops : List Op) :
    Except Fault State :=
  match luaopen_screen State.init win rend succeeds with
  | .ok r => run fc r.1 ops
  | .error e => .error e

/-- States reachable from `luaopen_screen` through the exposed operations. -/
def Reachable (fc : FontChar) (s : State) : Prop :=
  ∃ win rend succeeds ops, session fc win rend succeeds ops = .ok s

/-- A font whose every character advances by 8. -/
def fixedFont : FontChar := fun _ _ _ _ => 8

/-! ## Auxiliary definitions used in the statements -/

/-- State in which `luaopen_screen` is aborted when the window is not created. -/
def luaopen_screen.noWindow (s : State) : State :=
  { window := { s.window with rect := ⟨0, 0, 600, 400⟩, scale := 2, window := none },
    sdl := { s.sdl with calls := s.sdl.calls ++ [.SDL_CreateWindow 600 400 none] } }

/-- State in which `luaopen_screen` is aborted when the renderer is not created. -/
def luaopen_screen.noRenderer (s : State) (win : Nat) : State :=
  { window := { s.window with rect := ⟨0, 0, 600, 400⟩, scale := 2, window := some win,
                              renderer := none },
    sdl := { s.sdl with calls := s.sdl.calls ++
      [.SDL_CreateWindow 600 400 (some win), .SDL_CreateRenderer (some win) none] } }

/-- State in which `luaopen_screen` is aborted when the texture is not created. -/
def luaopen_screen.noTexture (s : State) (win rend : Nat) : State :=
  { window := { s.window with rect := ⟨0, 0, 600, 400⟩, scale := 2, window := some win,
                              renderer := some rend, texture := none },
    sdl := { s.sdl with calls := s.sdl.calls ++
      [.SDL_CreateWindow 600 400 (some win), .SDL_CreateRenderer (some win) (some rend),
       .SDL_CreateTexture (some rend) 600 400 none] } }

/-- State of the examples: the module has just been loaded. -/
def loaded : State :=
  { window := { window := some 100, renderer := some 200, texture := some 1,
                rect := ⟨0, 0, 600, 400⟩, scale := 2, font := ⟨0⟩ },
    sdl := { textures := [⟨1, 600, 400⟩], target := none, drawColor := (255, 255, 255, 255),
             scale := (1, 1),
             calls := [.SDL_CreateWindow 600 400 (some 100), .SDL_CreateRenderer (some 100) (some 200),
                       .SDL_CreateTexture (some 200) 600 400 (some 1),
                       .SDL_SetRenderDrawColor (some 200) 255 255 255 255] } }

/-- The value of `window.scale` after a sequence of calls: 2 from
`luaopen_screen`, then the argument of each `screen_setScale`, converted. -/
def lastScale (start : Int) : List Op → Int
  | [] => start
  | .setScale a :: ops => lastScale (toInt a) ops
  | _ :: ops => lastScale start ops

/-- The calls made by the loop of `screen_write` started at `x`. -/
def screen_write.calls (fc : FontChar) (font : Font) (renderer : Ptr) (y : Int) :
    List UInt8 → Int → List Call
  | [], _ => []
  | c :: rest, x =>
    .font_char font renderer x y c (fc font x y c)
      :: screen_write.calls fc font renderer y rest (toInt (x + fc font x y c))

/-- The advances returned to the loop of `screen_write` started at `x`. -/
def screen_write.advances (fc : FontChar) (font : Font) (y : Int) : List UInt8 → Int → List Int
  | [], _ => []
  | c :: rest, x =>
    fc font x y c :: screen_write.advances fc font y rest (toInt (x + fc font x y c))

/-- The render target texture is live and exactly as large as the window
rectangle, which starts at the origin. -/
def TextureFits (s : State) : Prop :=
  s.window.rect.x = 0 ∧ s.window.rect.y = 0 ∧
  ∃ t, s.window.texture = some t ∧ s.sdl.sizeOf t = some (s.window.rect.w, s.window.rect.h)

/-! # Theorems -/

/-! ## Arithmetic of the conversions -/

theorem toInt_of_range (v : Int) (h1 : -2147483648 ≤ v) (h2 : v < 2147483648) :
    toInt v = v := by
  unfold toInt
  omega

theorem toInt_range (v : Int) : -2147483648 ≤ toInt v ∧ toInt v < 2147483648 := by
  unfold toInt
  omega

theorem toInt_toInt_add (a b : Int) : toInt (toInt a + b) = toInt (a + b) := by
  unfold toInt
  omega

theorem toUint8_toInt (v : Int) : toUint8 (toInt v) = v % 256 := by
  unfold toUint8 toInt
  omega

theorem toUint8_toInt_getD (o : Option Int) (r : Int) :
    toUint8 (toInt (o.getD (toInt r))) = (o.getD r) % 256 := by
  cases o with
  | none => simp only [Option.getD_none, toUint8_toInt]; unfold toInt; omega
  | some v => simp only [Option.getD_some, toUint8_toInt]

theorem toUint8_of_range (v : Int) (h1 : 0 ≤ v) (h2 : v ≤ 255) : v % 256 = v := by
  omega

/-! ## Textures -/

theorem le_foldr_max (l : List Nat) (x : Nat) (h : x ∈ l) : x ≤ l.foldr max 0 := by
  induction l with
  | nil => cases h
  | cons a l ih =>
    simp only [List.foldr_cons]
    rcases List.mem_cons.mp h with h | h
    · subst h; exact le_max_left _ _
    · exact le_trans (ih h) (le_max_right _ _)

/-- No live texture sits at the fresh address. -/
theorem Sdl.fresh_not_live (sdl : Sdl) (e : Texture) (h : e ∈ sdl.textures) :
    e.id < sdl.fresh := by
  have := le_foldr_max (sdl.textures.map Texture.id) e.id (List.mem_map_of_mem _ h)
  unfold Sdl.fresh
  omega

theorem find_id_none (l : List Texture) (t : Nat) (h : ∀ e ∈ l, e.id ≠ t) :
    l.find? (fun e => e.id == t) = none := by
  rw [List.find?_eq_none]
  intro e he
  simpa using h e he

/-- A texture with a size is one of the live textures. -/
theorem Sdl.sizeOf_some_live (sdl : Sdl) (t : Nat) (sz : Int × Int)
    (h : sdl.sizeOf t = some sz) : ∃ e ∈ sdl.textures, e.id = t := by
  unfold Sdl.sizeOf at h
  cases hf : sdl.textures.find? (fun e => e.id == t) with
  | none => rw [hf] at h; cases h
  | some e =>
    refine ⟨e, List.mem_of_find?_eq_some hf, ?_⟩
    simpa using List.find?_some hf

theorem fresh_ne_of_sizeOf (sdl : Sdl) (t : Nat) (sz : Int × Int)
    (h : sdl.sizeOf t = some sz) : t ≠ sdl.fresh := by
  obtain ⟨e, he, rfl⟩ := sdl.sizeOf_some_live t sz h
  exact Nat.ne_of_lt (sdl.fresh_not_live e he)

/-- Lookup of the texture just created, after the old one has been destroyed. -/
theorem find_fresh (l : List Texture) (n t : Nat) (w h : Int) (hn : ∀ e ∈ l, e.id ≠ n)
    (ht : t ≠ n) :
    ((l ++ [Texture.mk n w h]).filter (fun e => e.id != t)).find? (fun e => e.id == n)
      = some (Texture.mk n w h) := by
  rw [List.filter_append, List.find?_append, find_id_none]
  · have : (n != t) = true := by simpa using Ne.symm ht
    simp [List.filter, this]
  · intro e he
    exact hn e (List.mem_filter.mp he).1

/-- Lookup of a destroyed texture. -/
theorem find_destroyed (l : List Texture) (t : Nat) :
    (l.filter (fun e => e.id != t)).find? (fun e => e.id == t) = none := by
  apply find_id_none
  intro e he
  simpa using (List.mem_filter.mp he).2

/-- Lookup of an old texture is not disturbed by a creation. -/
theorem find_append_fresh (l : List Texture) (n t : Nat) (w h : Int) (ht : t ≠ n) :
    (l ++ [Texture.mk n w h]).find? (fun e => e.id == t) = l.find? (fun e => e.id == t) := by
  rw [List.find?_append]
  have : (n == t) = false := by simpa using Ne.symm ht
  cases l.find? (fun e => e.id == t) <;> simp [List.find?, this]

/-! ## Loading the module -/

/-- C4: when the window, the renderer and the texture are all created,
`luaopen_screen` returns the module table and leaves `window.rect = (0, 0, 600, 400)`
and `window.scale = 2`; the calls it made are the three creations, the
texture one with size 600 x 400, then the draw colour set to white
(255, 255, 255, 255); the new texture is live with size 600 x 400 and is
`window.texture`; right after, `screen_getWidth` returns 300,
`screen_getHeight` 200 and `screen_getScale` 2. -/
theorem luaopen_screen_success (s : State) (win rend : Nat) :
    ∃ s1, luaopen_screen s (some win) (some rend) true = .ok (s1, [.table]) ∧
      s1.window.rect = ⟨0, 0, 600, 400⟩ ∧ s1.window.scale = 2 ∧
      s1.window.window = some win ∧ s1.window.renderer = some rend ∧
      s1.window.texture = some s.sdl.fresh ∧
      s1.sdl.sizeOf s.sdl.fresh = some (600, 400) ∧
      s1.sdl.calls = s.sdl.calls ++
        [.SDL_CreateWindow 600 400 (some win),
         .SDL_CreateRenderer (some win) (some rend),
         .SDL_CreateTexture (some rend) 600 400 (some s.sdl.fresh),
         .SDL_SetRenderDrawColor (some rend) 255 255 255 255] ∧
      s1.sdl.drawColor = (255, 255, 255, 255) ∧
      screen_getWidth s1 = .ok (s1, [.integer 300]) ∧
      screen_getHeight s1 = .ok (s1, [.integer 200]) ∧
      screen_getScale s1 = .ok (s1, [.integer 2]) := by
  refine ⟨_, rfl, rfl, rfl, rfl, rfl, rfl, ?_, ?_, rfl, rfl, rfl, rfl⟩
  · have hfind : (s.sdl.textures ++ [Texture.mk s.sdl.fresh 600 400]).find?
        (fun e => e.id == s.sdl.fresh) = some (Texture.mk s.sdl.fresh 600 400) := by
      rw [List.find?_append, find_id_none]
      · simp [List.find?]
      · intro e he
        exact Nat.ne_of_lt (s.sdl.fresh_not_live e he)
    show ((s.sdl.textures ++ [Texture.mk s.sdl.fresh 600 400]).find?
        (fun e => e.id == s.sdl.fresh)).map (fun e => (e.w, e.h)) = some (600, 400)
    rw [hfind]
    rfl
  · show s.sdl.calls ++ [Call.SDL_CreateWindow 600 400 (some win)]
        ++ [Call.SDL_CreateRenderer (some win) (some rend)]
        ++ [Call.SDL_CreateTexture (some rend) 600 400 (some s.sdl.fresh)]
        ++ [Call.SDL_SetRenderDrawColor (some rend) 255 255 255 255] = _
    simp

/-- C5: initialisation failures are fatal in `luaopen_screen`.  If the window
is not created the process is aborted after that one call: no renderer and no
texture creation is attempted.  If the renderer is not created it is aborted
after the two calls: no texture creation is attempted.  If the texture is
not created it is aborted as well.  Hence `luaopen_screen` returns (with the
module table) exactly when the three creations all give a non-null pointer,
and aborts exactly when one of them gives null. -/
theorem luaopen_screen_fatal (s : State) (win rend : Ptr) (succeeds : Bool) :
    luaopen_screen s none rend succeeds = .error (.fatal (luaopen_screen.noWindow s)) ∧
    (∀ w, luaopen_screen s (some w) none succeeds
        = .error (.fatal (luaopen_screen.noRenderer s w))) ∧
    (∀ w r, luaopen_screen s (some w) (some r) false
        = .error (.fatal (luaopen_screen.noTexture s w r))) ∧
    ((∃ s1, luaopen_screen s win rend succeeds = .ok (s1, [.table])) ↔
      (win ≠ none ∧ rend ≠ none ∧ succeeds = true)) ∧
    ((∃ s1, luaopen_screen s win rend succeeds = .error (.fatal s1)) ↔
      (win = none ∨ rend = none ∨ succeeds = false)) := by
  refine ⟨rfl, fun _ => ?_, fun _ _ => ?_, ?_, ?_⟩
  · simp [luaopen_screen, luaopen_screen.noRenderer, SDL_CreateRenderer,
      SDL_CreateWindow, Sdl.log, checkSDL]
  · simp [luaopen_screen, luaopen_screen.noTexture, SDL_CreateTexture, SDL_CreateRenderer,
      SDL_CreateWindow, Sdl.log, checkSDL]
  · cases win <;> cases rend <;> cases succeeds <;>
      simp [luaopen_screen, SDL_CreateTexture, SDL_CreateRenderer, SDL_CreateWindow,
        Sdl.log, checkSDL]
  · cases win <;> cases rend <;> cases succeeds <;>
      simp [luaopen_screen, SDL_CreateTexture, SDL_CreateRenderer, SDL_CreateWindow,
        Sdl.log, checkSDL]

/-! ## Draw colour -/

/-- C3, as stated, fails: `colour(256)` does not set (256, 256, 256, 255).
The channels are `Uint8`, so the colour set is (0, 0, 0, 255). -/
theorem screen_colour_256 :
    screen_colour State.init 256 none none none
      = .ok ({ State.init with sdl := { State.init.sdl with
                drawColor := (0, 0, 0, 255),
                calls := [.SDL_SetRenderDrawColor none 0 0 0 255] } }, []) ∧
    ((0 : Int), (0 : Int), (0 : Int), (255 : Int)) ≠ (256, 256, 256, 255) := by
  decide

/-- C3 (amended): `screen_colour` makes one set-draw-colour call, returns no
value and leaves the window record alone.  Each channel received by the call
is the corresponding argument reduced modulo 256, where an absent green or
blue defaults to the red argument and an absent alpha to 255: `colour(r)`
sets (r mod 256, r mod 256, r mod 256, 255), `colour(r, g)` sets
(r mod 256, g mod 256, r mod 256, 255), and so on.  Arguments between 0 and
255 are forwarded unchanged. -/
theorem screen_colour_channels (s : State) (r : Int) (g b a : Option Int) :
    ∃ s1, screen_colour s r g b a = .ok (s1, []) ∧
      s1.window = s.window ∧
      s1.sdl.calls = s.sdl.calls ++
        [.SDL_SetRenderDrawColor s.window.renderer
          (r % 256) (g.getD r % 256) (b.getD r % 256) (a.getD 255 % 256)] ∧
      s1.sdl.drawColor = (r % 256, g.getD r % 256, b.getD r % 256, a.getD 255 % 256) ∧
      (∀ v : Int, 0 ≤ v → v ≤ 255 → v % 256 = v) := by
  refine ⟨_, rfl, rfl, ?_, ?_, toUint8_of_range⟩
  · show s.sdl.calls ++ [Call.SDL_SetRenderDrawColor s.window.renderer
        (toUint8 (toInt r)) (toUint8 (toInt (g.getD (toInt r))))
        (toUint8 (toInt (b.getD (toInt r)))) (toUint8 (toInt (a.getD 255)))] = _
    rw [toUint8_toInt, toUint8_toInt_getD, toUint8_toInt_getD, toUint8_toInt]
  · show (toUint8 (toInt r), toUint8 (toInt (g.getD (toInt r))),
        toUint8 (toInt (b.getD (toInt r))), toUint8 (toInt (a.getD 255))) = _
    rw [toUint8_toInt, toUint8_toInt_getD, toUint8_toInt_getD, toUint8_toInt]

/-! ## Scale, width and height -/

theorem loaded_eq : luaopen_screen State.init (some 100) (some 200) true = .ok (loaded, [.table]) := by
  decide

theorem loaded_reachable (fc : FontChar) : Reachable fc loaded :=
  ⟨some 100, some 200, true, [], by simp [session, loaded_eq, run]⟩

/-- C6, as stated, fails after `screen_setScale`: the scales 4294967298 and
4294967296 are positive, yet after `setScale(4294967298)` the scale
reported is 2 and the width reported for `rect.w = 600` is 300, not
`600 / 4294967298 = 0`, and after `setScale(4294967296)` the scale stored
is 0 and no width is reported, the division being by zero. -/
theorem screen_setScale_not_stored :
    (0 : Int) < 4294967298 ∧ (0 : Int) < 4294967296 ∧
    run fixedFont loaded [.setScale 4294967298]
      = .ok { loaded with window := { loaded.window with scale := 2 } } ∧
    screen_getScale { loaded with window := { loaded.window with scale := 2 } }
      = .ok ({ loaded with window := { loaded.window with scale := 2 } }, [.integer 2]) ∧
    screen_getWidth { loaded with window := { loaded.window with scale := 2 } }
      = .ok ({ loaded with window := { loaded.window with scale := 2 } }, [.integer 300]) ∧
    (2 : Int) ≠ 4294967298 ∧ cdiv 600 4294967298 = 0 ∧
    run fixedFont loaded [.setScale 4294967296, .getWidth] = .error .undefined := by
  decide

theorem cdiv_bounds (a b : Int) (ha : 0 ≤ a) (hb : 0 < b) :
    cdiv a b * b ≤ a ∧ a < (cdiv a b + 1) * b := by
  unfold cdiv
  rw [Int.tdiv_eq_ediv ha (le_of_lt hb)]
  exact ⟨Int.ediv_mul_le a (ne_of_gt hb), Int.lt_ediv_add_one_mul_self a hb⟩

/-- C6 (amended): in every state with scale `s > 0` and `rect.w, rect.h >= 0`,
`screen_getWidth` returns the one integer `q = rect.w / s` (truncating), with
`q * s <= rect.w < (q + 1) * s`, `screen_getHeight` likewise for `rect.h`, and
neither changes the state.  In every state, for every `a` with
`0 < a < 2^31` (a positive scale that fits the `int` field), after
`screen_setScale(a)` `screen_getScale` returns `a`, the width and height
reported are at once `rect.w / a` and `rect.h / a`, and `rect` is unchanged. -/
theorem screen_scaled_size (s s0 : State) (a : Int) (hs : 0 < s.window.scale)
    (hw : 0 ≤ s.window.rect.w) (hh : 0 ≤ s.window.rect.h)
    (ha0 : 0 < a) (ha1 : a < 2147483648) :
    (screen_getWidth s = .ok (s, [.integer (cdiv s.window.rect.w s.window.scale)]) ∧
      cdiv s.window.rect.w s.window.scale * s.window.scale ≤ s.window.rect.w ∧
      s.window.rect.w < (cdiv s.window.rect.w s.window.scale + 1) * s.window.scale) ∧
    (screen_getHeight s = .ok (s, [.integer (cdiv s.window.rect.h s.window.scale)]) ∧
      cdiv s.window.rect.h s.window.scale * s.window.scale ≤ s.window.rect.h ∧
      s.window.rect.h < (cdiv s.window.rect.h s.window.scale + 1) * s.window.scale) ∧
    (∃ s1, screen_setScale s0 a = .ok (s1, []) ∧
      s1.window.rect = s0.window.rect ∧
      screen_getScale s1 = .ok (s1, [.integer a]) ∧
      screen_getWidth s1 = .ok (s1, [.integer (cdiv s0.window.rect.w a)]) ∧
      screen_getHeight s1 = .ok (s1, [.integer (cdiv s0.window.rect.h a)])) := by
  have hs0 : s.window.scale ≠ 0 := ne_of_gt hs
  have hw1 : s.window.rect.w ≠ -2147483648 := by omega
  have hh1 : s.window.rect.h ≠ -2147483648 := by omega
  have ha : toInt a = a := toInt_of_range a (by omega) ha1
  have ha2 : a ≠ 0 := ne_of_gt ha0
  have ha3 : a ≠ -1 := by omega
  refine ⟨⟨?_, cdiv_bounds _ _ hw hs⟩, ⟨?_, cdiv_bounds _ _ hh hs⟩, ?_⟩
  · simp [screen_getWidth, hs0, hw1]
  · simp [screen_getHeight, hs0, hh1]
  · refine ⟨{ s0 with window := { s0.window with scale := a } }, ?_, rfl, rfl, ?_, ?_⟩
    · simp [screen_setScale, ha]
    · simp [screen_getWidth, ha2, ha3]
    · simp [screen_getHeight, ha2, ha3]

/-- The amended C6 at concrete states: 600 x 400 at scale 2 gives 300 x 200;
from a state with a negative width and scale 0, `setScale(3)` gives scale 3
and the width `-7 / 3 = -2`. -/
theorem screen_scaled_size_witness :
    screen_getWidth loaded = .ok (loaded, [.integer 300]) ∧
    screen_getHeight loaded = .ok (loaded, [.integer 200]) ∧
    (∃ s1, screen_setScale
        { State.init with window := { State.init.window with rect := ⟨0, 0, -7, 400⟩ } } 3
          = .ok (s1, []) ∧
      screen_getScale s1 = .ok (s1, [.integer 3]) ∧
      screen_getWidth s1 = .ok (s1, [.integer (-2)]) ∧
      screen_getHeight s1 = .ok (s1, [.integer 133])) := by
  have h := screen_scaled_size loaded
    { State.init with window := { State.init.window with rect := ⟨0, 0, -7, 400⟩ } } 3
    (by decide) (by decide) (by decide) (by decide) (by decide)
  obtain ⟨⟨h1, _⟩, ⟨h2, _⟩, s1, h3, _, h4, h5, h6⟩ := h
  exact ⟨h1, h2, s1, h3, h4, h5, h6⟩

/-! ## The scale is whatever was last stored -/

/-- The loop of `screen_write` only adds its calls to the record. -/
theorem screen_write.loop_eq (fc : FontChar) (font : Font) (renderer : Ptr) (y : Int)
    (str : List UInt8) (x : Int) (sdl : Sdl) :
    screen_write.loop fc font renderer y str x sdl
      = { sdl with calls := sdl.calls ++ screen_write.calls fc font renderer y str x } := by
  induction str generalizing x sdl with
  | nil => simp [screen_write.loop, screen_write.calls]
  | cons c rest ih =>
    simp [screen_write.loop, screen_write.calls, ih, font_char, Sdl.log]

/-- Only `screen_setScale` writes `window.scale`. -/
theorem step_scale (fc : FontChar) (s : State) (op : Op) (r : State × List LuaValue)
    (h : step fc s op = .ok r) : r.1.window.scale = lastScale s.window.scale [op] := by
  cases op <;>
    simp only [step, screen_getWidth, screen_getHeight, screen_getScale, screen_setScale,
      screen_colour, screen_pixel, screen_rect, screen_clear, screen_char, screen_write,
      screen_loadFont, screen_resize, screen_present, checkSDL] at h <;>
    (try split at h) <;> (try split at h) <;> (try split at h) <;>
    (cases h <;> rfl)

/-- Run of a sequence that returns: the scale is the last one stored. -/
theorem run_scale (fc : FontChar) (ops : List Op) (s s1 : State)
    (h : run fc s ops = .ok s1) : s1.window.scale = lastScale s.window.scale ops := by
  induction ops generalizing s with
  | nil => cases h; rfl
  | cons op ops ih =>
    simp only [run] at h
    split at h
    · rename_i r hr
      rw [ih _ h, step_scale fc s op r hr]
      cases op <;> rfl
    · cases h

theorem lastScale_ne_zero (ops : List Op) (start : Int) (h0 : start ≠ 0)
    (h : ∀ a, Op.setScale a ∈ ops → toInt a ≠ 0) : lastScale start ops ≠ 0 := by
  induction ops generalizing start with
  | nil => exact h0
  | cons op ops ih =>
    have hrest : ∀ a, Op.setScale a ∈ ops → toInt a ≠ 0 :=
      fun a ha => h a (List.mem_cons_of_mem _ ha)
    cases op
    case setScale a => exact ih (toInt a) (h a (List.mem_cons_self _ _)) hrest
    all_goals exact ih start h0 hrest

/-- A session that returns started with a successful load, whose state has scale 2. -/
theorem session_ok (fc : FontChar) (win rend : Ptr) (succeeds : Bool) (ops : List Op)
    (s : State) (h : session fc win rend succeeds ops = .ok s) :
    ∃ r, luaopen_screen State.init win rend succeeds = .ok r ∧ run fc r.1 ops = .ok s ∧
      r.1.window.scale = 2 := by
  unfold session at h
  split at h
  · rename_i r hr
    refine ⟨r, hr, h, ?_⟩
    cases win <;> cases rend <;> cases succeeds <;>
      simp [luaopen_screen, SDL_CreateTexture, SDL_CreateRenderer, SDL_CreateWindow,
        Sdl.log, checkSDL] at hr
    rw [← hr]
  · cases h

/-- C9, as stated, fails: the state after `luaopen_screen` and `setScale(0)`
is reachable and has `window.scale = 0`; `screen_getWidth` then divides by zero. -/
theorem scale_zero_reachable :
    ∃ s, Reachable fixedFont s ∧ s.window.scale = 0 ∧
      screen_getWidth s = .error .undefined ∧ screen_getHeight s = .error .undefined :=
  ⟨{ loaded with window := { loaded.window with scale := 0 } },
    ⟨some 100, some 200, true, [.setScale 0], by decide⟩, rfl, rfl, rfl⟩

/-- C9 (amended): `screen_setScale` stores its argument unchecked, so in a
state reached from `luaopen_screen` by a sequence of calls `window.scale` is
2 if `screen_setScale` was never called and otherwise the argument of the
last `screen_setScale`, converted to `int`.  It is non-zero, and
`screen_getWidth` and `screen_getHeight` do not divide by zero, provided no
`screen_setScale` of the sequence was given an argument that converts to 0. -/
theorem scale_after_session (fc : FontChar) (win rend : Ptr) (succeeds : Bool)
    (ops : List Op) (s : State) (h : session fc win rend succeeds ops = .ok s) :
    s.window.scale = lastScale 2 ops ∧
    ((∀ a, Op.setScale a ∈ ops → toInt a ≠ 0) → s.window.scale ≠ 0) := by
  obtain ⟨r, _, hrun, h2⟩ := session_ok fc win rend succeeds ops s h
  have hs := run_scale fc ops r.1 s hrun
  rw [h2] at hs
  refine ⟨hs, fun hne => ?_⟩
  rw [hs]
  exact lastScale_ne_zero ops 2 (by decide) hne

/-- The amended C9 on a session that sets the scale to 3 and then 4. -/
theorem scale_after_session_witness :
    session fixedFont (some 100) (some 200) true [.setScale 3, .getWidth, .setScale 4]
      = .ok { loaded with window := { loaded.window with scale := 4 } } ∧
    ({ loaded with window := { loaded.window with scale := 4 } } : State).window.scale ≠ 0 :=
  ⟨by decide,
   (scale_after_session fixedFont (some 100) (some 200) true
      [.setScale 3, .getWidth, .setScale 4] _ (by decide)).2
      (by
        intro a ha
        simp only [List.mem_cons, Op.setScale.injEq, reduceCtorEq, false_or, or_false,
          List.mem_singleton, List.not_mem_nil] at ha
        rcases ha with rfl | rfl <;> decide)⟩

/-! ## The render target -/

/-- Every call but `screen_resize` keeps the render target on `window.texture`
once it is there; `screen_present` puts it there. -/
theorem step_target (fc : FontChar) (s : State) (op : Op) (r : State × List LuaValue)
    (h : step fc s op = .ok r) (hop : ∀ w h ok, op ≠ .resize w h ok)
    (hinv : op = .present ∨ s.sdl.target = s.window.texture) :
    r.1.sdl.target = r.1.window.texture := by
  cases op
  case resize a b ok => exact absurd rfl (hop a b ok)
  case present => cases h; rfl
  case write str x y =>
    simp only [step, screen_write, screen_write.loop_eq] at h
    cases h
    exact hinv.resolve_left (by simp)
  all_goals
    simp only [step, screen_getWidth, screen_getHeight, screen_getScale, screen_setScale,
      screen_colour, screen_pixel, screen_rect, screen_clear, screen_char,
      screen_loadFont] at h
    (try split at h)
    all_goals first
      | cases h
        exact hinv.resolve_left (by simp)
      | cases h

theorem run_target (fc : FontChar) (ops : List Op) (s s1 : State)
    (h : run fc s ops = .ok s1) (hops : ∀ w h ok, Op.resize w h ok ∉ ops)
    (hinv : s.sdl.target = s.window.texture) : s1.sdl.target = s1.window.texture := by
  induction ops generalizing s with
  | nil => cases h; exact hinv
  | cons op ops ih =>
    simp only [run] at h
    split at h
    · rename_i r hr
      refine ih r.1 h (fun w h ok hm => hops w h ok (List.mem_cons_of_mem _ hm)) ?_
      refine step_target fc s op r hr (fun w h ok hop => ?_) (Or.inr hinv)
      exact hops w h ok (hop ▸ List.mem_cons_self _ _)
    · cases h

/-- `screen_resize`, when it returns, has left the render target on the window. -/
theorem screen_resize_target (s : State) (w h : Int) (ok : Bool) (r : State × List LuaValue)
    (hr : screen_resize s w h ok = .ok r) : r.1.sdl.target = none := by
  simp only [screen_resize] at hr
  split at hr
  · cases hr
  · split at hr
    · cases hr
    · cases hr
      cases hw : s.window.texture <;>
        simp [SDL_DestroyTexture, SDL_SetRenderTarget, SDL_RenderCopy, Sdl.log]

/-! ## Resizing -/

theorem ite_lt_eq_min (a b : Int) : (if a < b then a else b) = min a b := by
  rcases lt_or_le a b with h | h
  · rw [if_pos h, min_eq_left (le_of_lt h)]
  · rw [if_neg (not_lt.mpr h), min_eq_right h]

/-- C1, as stated, fails: the width 4294967301 does not fit the `int` field
`window.rect.w`; the texture is created 5 wide and `window.rect.w` is 5. -/
theorem screen_resize_wide :
    ∃ s1, screen_resize loaded 4294967301 7 true = .ok (s1, []) ∧
      s1.window.rect.w = 5 ∧ s1.sdl.textures = [⟨2, 5, 7⟩] ∧ (5 : Int) ≠ 4294967301 :=
  ⟨_, rfl, rfl, rfl, by decide⟩

/-- What `screen_resize` does when the current texture is live and the new one
is created. -/
theorem screen_resize_created (s : State) (arg2 arg3 : Int) (t : Nat) (oldW oldH : Int)
    (ht : s.window.texture = some t) (hsz : s.sdl.sizeOf t = some (oldW, oldH)) :
    ∃ s1, screen_resize s arg2 arg3 true = .ok (s1, []) ∧
      s1.sdl.calls = s.sdl.calls ++
        [.SDL_CreateTexture s.window.renderer (toInt arg2) (toInt arg3) (some s.sdl.fresh),
         .SDL_QueryTexture (some t),
         .SDL_SetRenderTarget s.window.renderer (some s.sdl.fresh),
         .SDL_RenderCopy s.window.renderer (some t)
            ⟨0, 0, min (toInt arg2) oldW, min (toInt arg3) oldH⟩
            ⟨0, 0, min (toInt arg2) oldW, min (toInt arg3) oldH⟩,
         .SDL_SetRenderTarget s.window.renderer none,
         .SDL_DestroyTexture (some t)] ∧
      s1.window.rect.x = s.window.rect.x ∧ s1.window.rect.y = s.window.rect.y ∧
      s1.window.rect.w = toInt arg2 ∧ s1.window.rect.h = toInt arg3 ∧
      s1.window.texture = some s.sdl.fresh ∧ s.sdl.fresh ≠ t ∧
      s1.sdl.sizeOf s.sdl.fresh = some (toInt arg2, toInt arg3) ∧
      s1.sdl.sizeOf t = none ∧
      (-2147483648 ≤ arg2 → arg2 < 2147483648 → toInt arg2 = arg2) ∧
      (-2147483648 ≤ arg3 → arg3 < 2147483648 → toInt arg3 = arg3) := by
  have hne : t ≠ s.sdl.fresh := fresh_ne_of_sizeOf s.sdl t _ hsz
  have hq : (SDL_QueryTexture
      (SDL_CreateTexture s.sdl s.window.renderer (toInt arg2) (toInt arg3) true).1
      (some t)).2 = some (oldW, oldH) := by
    show ((s.sdl.textures ++ [Texture.mk s.sdl.fresh (toInt arg2) (toInt arg3)]).find?
      (fun e => e.id == t)).map (fun e => (e.w, e.h)) = some (oldW, oldH)
    rw [find_append_fresh _ _ _ _ _ hne]
    exact hsz
  refine Exists.intro ?s1 (And.intro ?h1 (And.intro ?h2 ?h3))
  case h1 =>
    simp only [screen_resize, ht, checkSDL]
    rw [hq]
    exact rfl
  · simp only [SDL_DestroyTexture, SDL_SetRenderTarget, SDL_RenderCopy, SDL_QueryTexture,
      SDL_CreateTexture, Sdl.log, if_true, ite_lt_eq_min, List.append_assoc,
      List.singleton_append]
    rfl
  · refine ⟨rfl, rfl, rfl, rfl, rfl, Ne.symm hne, ?_, ?_, toInt_of_range arg2, toInt_of_range arg3⟩
    · show (((s.sdl.textures ++ [Texture.mk s.sdl.fresh (toInt arg2) (toInt arg3)]).filter
        (fun e => e.id != t)).find? (fun e => e.id == s.sdl.fresh)).map (fun e => (e.w, e.h))
          = some (toInt arg2, toInt arg3)
      rw [find_fresh _ _ _ _ _ (fun e he => Nat.ne_of_lt (s.sdl.fresh_not_live e he)) hne]
      rfl
    · show (((s.sdl.textures ++ [Texture.mk s.sdl.fresh (toInt arg2) (toInt arg3)]).filter
        (fun e => e.id != t)).find? (fun e => e.id == t)).map (fun e => (e.w, e.h)) = none
      rw [find_destroyed]
      rfl

/-- C1 (amended): let `W` and `H` be the second and third argument of
`screen_resize` converted to `int` (the arguments themselves when they are in
the `int` range).  In a state whose current texture has size `(oldW, oldH)`,
and when the library creates the new texture, `screen_resize` returns no
value after exactly these calls: the creation with size `(W, H)`, the query
of the old texture, the new texture made the render target, one copy from
the old texture with source and destination rectangle
`(0, 0, min W oldW, min H oldH)`, the render target set back to the window,
the old texture destroyed.  Afterwards `window.rect.w = W`,
`window.rect.h = H`, `window.texture` is the new texture, which is live with
size `(W, H)`, and the old texture is no longer live. -/
theorem screen_resize_copy (s : State) (arg2 arg3 : Int) (t : Nat) (oldW oldH : Int)
    (ht : s.window.texture = some t) (hsz : s.sdl.sizeOf t = some (oldW, oldH)) :
    ∃ s1, screen_resize s arg2 arg3 true = .ok (s1, []) ∧
      s1.sdl.calls = s.sdl.calls ++
        [.SDL_CreateTexture s.window.renderer (toInt arg2) (toInt arg3) (some s.sdl.fresh),
         .SDL_QueryTexture (some t),
         .SDL_SetRenderTarget s.window.renderer (some s.sdl.fresh),
         .SDL_RenderCopy s.window.renderer (some t)
            ⟨0, 0, min (toInt arg2) oldW, min (toInt arg3) oldH⟩
            ⟨0, 0, min (toInt arg2) oldW, min (toInt arg3) oldH⟩,
         .SDL_SetRenderTarget s.window.renderer none,
         .SDL_DestroyTexture (some t)] ∧
      s1.window.rect.w = toInt arg2 ∧ s1.window.rect.h = toInt arg3 ∧
      s1.window.texture = some s.sdl.fresh ∧ s.sdl.fresh ≠ t ∧
      s1.sdl.sizeOf s.sdl.fresh = some (toInt arg2, toInt arg3) ∧
      s1.sdl.sizeOf t = none ∧
      (-2147483648 ≤ arg2 → arg2 < 2147483648 → toInt arg2 = arg2) ∧
      (-2147483648 ≤ arg3 → arg3 < 2147483648 → toInt arg3 = arg3) := by
  obtain ⟨s1, h1, h2, _, _, h3⟩ := screen_resize_created s arg2 arg3 t oldW oldH ht hsz
  exact ⟨s1, h1, h2, h3⟩

/-- The amended C1 after the load: the 600 x 400 texture is replaced by one of
300 x 500, the copy is 300 x 400. -/
theorem screen_resize_copy_witness :
    ∃ s1, screen_resize loaded 300 500 true = .ok (s1, []) ∧
      s1.sdl.calls = loaded.sdl.calls ++
        [.SDL_CreateTexture (some 200) 300 500 (some 2),
         .SDL_QueryTexture (some 1),
         .SDL_SetRenderTarget (some 200) (some 2),
         .SDL_RenderCopy (some 200) (some 1) ⟨0, 0, 300, 400⟩ ⟨0, 0, 300, 400⟩,
         .SDL_SetRenderTarget (some 200) none,
         .SDL_DestroyTexture (some 1)] ∧
      s1.window.rect.w = 300 ∧ s1.window.rect.h = 500 ∧ s1.window.texture = some 2 := by
  obtain ⟨s1, h1, h2, h3, h4, h5, _⟩ :=
    screen_resize_copy loaded 300 500 1 600 400 (by decide) (by decide)
  exact ⟨s1, h1, h2, h3, h4, h5⟩

/-! ## Writing a string -/

theorem screen_write.calls_length (fc : FontChar) (font : Font) (renderer : Ptr) (y : Int)
    (str : List UInt8) (x : Int) :
    (screen_write.calls fc font renderer y str x).length = str.length := by
  induction str generalizing x with
  | nil => rfl
  | cons c rest ih => simp [screen_write.calls, ih]

theorem screen_write.advances_length (fc : FontChar) (font : Font) (y : Int)
    (str : List UInt8) (x : Int) :
    (screen_write.advances fc font y str x).length = str.length := by
  induction str generalizing x with
  | nil => rfl
  | cons c rest ih => simp [screen_write.advances, ih]

/-- The call number `i` of the loop started at `toInt x0`: its position is
`x0` plus the advances returned so far, converted to `int`. -/
theorem screen_write.calls_get (fc : FontChar) (font : Font) (renderer : Ptr) (y : Int)
    (str : List UInt8) (x0 : Int) (i : Nat) (hi : i < str.length) :
    (screen_write.calls fc font renderer y str (toInt x0))[i]? =
      some (.font_char font renderer
        (toInt (x0 + ((screen_write.advances fc font y str (toInt x0)).take i).sum)) y str[i]
        (fc font (toInt (x0 + ((screen_write.advances fc font y str (toInt x0)).take i).sum))
          y str[i])) ∧
    (screen_write.advances fc font y str (toInt x0))[i]? =
      some (fc font (toInt (x0 + ((screen_write.advances fc font y str (toInt x0)).take i).sum))
        y str[i]) := by
  induction str generalizing x0 i with
  | nil => simp at hi
  | cons c rest ih =>
    cases i with
    | zero => simp [screen_write.calls, screen_write.advances]
    | succ i =>
      have hi1 : i < rest.length := by simpa using hi
      have h := ih (x0 + fc font (toInt x0) y c) i hi1
      simp only [screen_write.calls, screen_write.advances, List.getElem?_cons_succ,
        List.take_succ_cons, List.sum_cons, List.getElem_cons_succ, toInt_toInt_add,
        ← add_assoc]
      exact h

/-- The call number `i` of the loop run over the first `N` characters. -/
theorem screen_write.calls_get_take (fc : FontChar) (font : Font) (renderer : Ptr) (y : Int)
    (str : List UInt8) (N : Nat) (x0 : Int) (i : Nat) (hi : i < str.length) (hiN : i < N) :
    (screen_write.calls fc font renderer y (str.take N) (toInt x0))[i]? =
      some (.font_char font renderer
        (toInt (x0 + ((screen_write.advances fc font y (str.take N) (toInt x0)).take i).sum))
        y str[i]
        (fc font
          (toInt (x0 + ((screen_write.advances fc font y (str.take N) (toInt x0)).take i).sum))
          y str[i])) ∧
    (screen_write.advances fc font y (str.take N) (toInt x0))[i]? =
      some (fc font
        (toInt (x0 + ((screen_write.advances fc font y (str.take N) (toInt x0)).take i).sum))
        y str[i]) := by
  have hi2 : i < (str.take N).length := by
    rw [List.length_take]
    exact lt_min hiN hi
  have h := screen_write.calls_get fc font renderer y (str.take N) x0 i hi2
  have hget : (str.take N)[i] = str[i] := List.getElem_take str
  rw [hget] at h
  exact h

/-- Nothing is drawn when the length held in `int n` is not positive. -/
theorem screen_write_none (fc : FontChar) (s : State) (str : List UInt8) (x y : Int)
    (h : (toInt str.length).toNat = 0) : screen_write fc s str x y = .ok (s, []) := by
  show (Except.ok ((⟨s.window, screen_write.loop fc s.window.font s.window.renderer
    (toInt y) (str.take (toInt str.length).toNat) (toInt x) s.sdl⟩ : State), []) : Result) = _
  rw [h]
  rfl

theorem toNat_toInt_length (n : Nat) : (toInt n).toNat ≤ n := by
  unfold toInt
  omega

theorem toNat_toInt_of_lt (n : Nat) (h : n < 2147483648) : (toInt n).toNat = n := by
  unfold toInt
  omega

/-- C7, as stated, fails: with `x = 4294967296` the character is drawn at
position 0, the value of `x` in the `int` variable; and for a string of
2147483648 characters the length held in `int n` is negative, so no call is
made at all. -/
theorem screen_write_far :
    (∃ s1, screen_write fixedFont loaded [65] 4294967296 0 = .ok (s1, []) ∧
      s1.sdl.calls = loaded.sdl.calls ++ [.font_char ⟨0⟩ (some 200) 0 0 65 8] ∧
      (0 : Int) ≠ 4294967296) ∧
    ((List.replicate 2147483648 (65 : UInt8)).length = 2147483648 ∧
      screen_write fixedFont loaded (List.replicate 2147483648 65) 0 0 = .ok (loaded, [])) := by
  refine ⟨⟨_, rfl, by decide, by decide⟩, List.length_replicate _ _, ?_⟩
  apply screen_write_none
  rw [List.length_replicate]
  decide

/-- C7 (amended): let `n` be the length of the string and `N` the value of `n`
held in the `int` of the loop bound (`N = n` when `n < 2^31`).
`screen_write(str, x, y)` returns no value, leaves the window record alone
and makes exactly `N` calls of `font_char` (none when `N` is not positive), in
the order `i = 0 .. N-1`; call `i` draws `str[i]` at the position
`(x + a_0 + ... + a_{i-1}, y)`, both coordinates converted to `int` (they
are the values themselves when those are in the `int` range), where `a_j` is
the advance returned by the call for `str[j]`.  The y coordinate is the same
for every character; the empty string makes no call. -/
theorem screen_write_positions (fc : FontChar) (s : State) (str : List UInt8) (x y : Int) :
    ∃ (s1 : State) (evs : List Call) (adv : List Int),
      screen_write fc s str x y = .ok (s1, []) ∧
      s1.window = s.window ∧
      s1.sdl.calls = s.sdl.calls ++ evs ∧
      evs.length = (toInt str.length).toNat ∧ adv.length = (toInt str.length).toNat ∧
      (∀ i (hi : i < str.length), i < (toInt str.length).toNat →
        evs[i]? = some (.font_char s.window.font s.window.renderer
          (toInt (x + (adv.take i).sum)) (toInt y) str[i]
          (fc s.window.font (toInt (x + (adv.take i).sum)) (toInt y) str[i])) ∧
        adv[i]? = some (fc s.window.font (toInt (x + (adv.take i).sum)) (toInt y) str[i])) ∧
      (str.length < 2147483648 → (toInt str.length).toNat = str.length) ∧
      (∀ v : Int, -2147483648 ≤ v → v < 2147483648 → toInt v = v) := by
  have hle : (toInt str.length).toNat ≤ str.length := toNat_toInt_length str.length
  have hlen : (str.take (toInt str.length).toNat).length = (toInt str.length).toNat := by
    rw [List.length_take]
    exact min_eq_left hle
  refine ⟨⟨s.window, ⟨s.sdl.textures, s.sdl.target, s.sdl.drawColor, s.sdl.scale,
      s.sdl.calls ++ screen_write.calls fc s.window.font s.window.renderer (toInt y)
        (str.take (toInt str.length).toNat) (toInt x)⟩⟩,
    screen_write.calls fc s.window.font s.window.renderer (toInt y)
      (str.take (toInt str.length).toNat) (toInt x),
    screen_write.advances fc s.window.font (toInt y)
      (str.take (toInt str.length).toNat) (toInt x), ?_, rfl, rfl, ?_, ?_, ?_,
    toNat_toInt_of_lt str.length, toInt_of_range⟩
  · unfold screen_write
    simp only [screen_write.loop_eq]
  · rw [screen_write.calls_length, hlen]
  · rw [screen_write.advances_length, hlen]
  · intro i hi hiN
    exact screen_write.calls_get_take fc s.window.font s.window.renderer (toInt y) str
      (toInt str.length).toNat x i hi hiN

/-! ## A failed creation in `screen_resize` -/

/-- The check of `screen_resize` looks at the old texture: when the current
texture is live and the library fails to create the new one, `screen_resize`
returns all the same, with a null `window.texture`. -/
theorem screen_resize_failed_creation (s : State) (arg2 arg3 : Int) (t : Nat)
    (sz : Int × Int) (ht : s.window.texture = some t) (hsz : s.sdl.sizeOf t = some sz) :
    ∃ s1, screen_resize s arg2 arg3 false = .ok (s1, []) ∧ s1.window.texture = none ∧
      s1.sdl.sizeOf t = none := by
  have hq : (SDL_QueryTexture
      (SDL_CreateTexture s.sdl s.window.renderer (toInt arg2) (toInt arg3) false).1
      (some t)).2 = some (sz.1, sz.2) := hsz
  refine Exists.intro ?s1 (And.intro ?h1 ?h2)
  case h1 =>
    simp only [screen_resize, ht, checkSDL]
    rw [hq]
    exact rfl
  · refine ⟨rfl, ?_⟩
    show ((s.sdl.textures.filter (fun e => e.id != t)).find? (fun e => e.id == t)).map
      (fun e => (e.w, e.h)) = none
    rw [find_destroyed]
    rfl

/-- C8, at the failing input: after the load, `screen_resize` with size 0 x 0,
for which the library creates no texture, is not aborted.  It returns after
destroying the old texture, the state it leaves is reachable, has a null
`window.texture` and no live texture. -/
theorem screen_resize_installs_null :
    ∃ s1, screen_resize loaded 0 0 false = .ok (s1, []) ∧
      Reachable fixedFont s1 ∧
      s1.window.texture = none ∧ s1.sdl.textures = [] ∧
      s1.sdl.calls = loaded.sdl.calls ++
        [.SDL_CreateTexture (some 200) 0 0 none,
         .SDL_QueryTexture (some 1),
         .SDL_SetRenderTarget (some 200) none,
         .SDL_RenderCopy (some 200) (some 1) ⟨0, 0, 0, 0⟩ ⟨0, 0, 0, 0⟩,
         .SDL_SetRenderTarget (some 200) none,
         .SDL_DestroyTexture (some 1)] :=
  ⟨_, rfl, ⟨some 100, some 200, true, [.resize 0 0 false], rfl⟩, rfl, rfl, rfl⟩

/-! ## Presenting -/

/-- C2, at the failing input: after the load and a `screen_resize` with size
0 x 0 for which the library creates no texture, `window.texture` is null, so
it has no size, and `screen_present` copies from the null texture. -/
theorem screen_present_null_texture :
    ∃ s s1, session fixedFont (some 100) (some 200) true [.resize 0 0 false] = .ok s ∧
      s.window.texture = none ∧ s.window.texture.bind s.sdl.sizeOf = none ∧
      screen_present s = .ok (s1, []) ∧
      s1.sdl.calls = s.sdl.calls ++
        [.SDL_SetRenderTarget (some 200) none,
         .SDL_RenderCopy (some 200) none ⟨0, 0, 0, 0⟩ ⟨0, 0, 0, 0⟩,
         .SDL_RenderPresent (some 200),
         .SDL_SetRenderTarget (some 200) none,
         .SDL_RenderSetScale (some 200) 2 2] :=
  ⟨_, _, rfl, rfl, rfl, rfl, rfl⟩

/-- Every call but `screen_resize` leaves the rectangle, the texture pointer
and the live textures alone. -/
theorem step_frame (fc : FontChar) (s : State) (op : Op) (r : State × List LuaValue)
    (h : step fc s op = .ok r) (hop : ∀ a b ok, op ≠ .resize a b ok) :
    r.1.window.rect = s.window.rect ∧ r.1.window.texture = s.window.texture ∧
      r.1.sdl.textures = s.sdl.textures := by
  cases op
  case resize a b ok => exact absurd rfl (hop a b ok)
  case write str x y =>
    simp only [step, screen_write, screen_write.loop_eq] at h
    cases h
    exact ⟨rfl, rfl, rfl⟩
  all_goals
    simp only [step, screen_getWidth, screen_getHeight, screen_getScale, screen_setScale,
      screen_colour, screen_pixel, screen_rect, screen_clear, screen_char,
      screen_loadFont, screen_present] at h
    (try split at h)
    all_goals first
      | cases h
        exact ⟨rfl, rfl, rfl⟩
      | cases h

/-- A call that returns, other than a `screen_resize` whose creation failed,
keeps the texture fitting the rectangle. -/
theorem step_fits (fc : FontChar) (s : State) (op : Op) (r : State × List LuaValue)
    (h : step fc s op = .ok r) (hop : ∀ a b, op ≠ .resize a b false)
    (hinv : TextureFits s) : TextureFits r.1 := by
  obtain ⟨hx, hy, t, ht, hsz⟩ := hinv
  by_cases hres : ∃ a b, op = .resize a b true
  · obtain ⟨a, b, rfl⟩ := hres
    obtain ⟨s1, h1, _, h2, h3, h4, h5, h6, _, h7, _⟩ :=
      screen_resize_created s a b t _ _ ht hsz
    have hr : r = (s1, []) := by
      simp only [step] at h
      rw [h1] at h
      cases h
      rfl
    subst hr
    exact ⟨h2.trans hx, h3.trans hy, s.sdl.fresh, h6, by rw [h4, h5]; exact h7⟩
  · have hop2 : ∀ a b ok, op ≠ .resize a b ok := by
      intro a b ok
      cases ok
      · exact hop a b
      · exact fun he => hres ⟨a, b, he⟩
    obtain ⟨h1, h2, h3⟩ := step_frame fc s op r h hop2
    refine ⟨by rw [h1]; exact hx, by rw [h1]; exact hy, t, by rw [h2]; exact ht, ?_⟩
    unfold Sdl.sizeOf
    rw [h3, h1]
    exact hsz

/-- A sequence of calls that all return, without a failed creation, keeps the
texture fitting the rectangle. -/
theorem run_fits (fc : FontChar) (ops : List Op) (s s1 : State)
    (h : run fc s ops = .ok s1) (hops : ∀ a b, Op.resize a b false ∉ ops)
    (hinv : TextureFits s) : TextureFits s1 := by
  induction ops generalizing s with
  | nil => cases h; exact hinv
  | cons op ops ih =>
    simp only [run] at h
    split at h
    · rename_i r hr
      refine ih r.1 h (fun a b hm => hops a b (List.mem_cons_of_mem _ hm)) ?_
      exact step_fits fc s op r hr (fun a b he => hops a b (he ▸ List.mem_cons_self _ _)) hinv
    · cases h

/-- After a successful load the texture fits the rectangle. -/
theorem luaopen_screen_fits (win rend : Ptr) (succeeds : Bool) (r : State × List LuaValue)
    (h : luaopen_screen State.init win rend succeeds = .ok r) : TextureFits r.1 := by
  cases win <;> cases rend <;> cases succeeds <;>
    simp [luaopen_screen, SDL_CreateTexture, SDL_CreateRenderer, SDL_CreateWindow,
      Sdl.log, checkSDL] at h
  subst h
  exact ⟨rfl, rfl, 1, rfl, rfl⟩

theorem floatShift_small (n : Nat) (h : n < 16777216) : floatShift n = 0 := by
  unfold floatShift
  rw [List.length_eq_zero, List.filter_eq_nil_iff]
  intro k _
  have hk : 2 ^ 24 ≤ 2 ^ (24 + k) := Nat.pow_le_pow_right (by decide) (Nat.le_add_right 24 k)
  have h24 : (2 : Nat) ^ 24 = 16777216 := by norm_num
  simp only [decide_eq_true_eq, not_le]
  omega

/-- An `int` of magnitude below 2^24 is passed unchanged for a `float`. -/
theorem toFloat_small (v : Int) (h : v.natAbs < 16777216) : toFloat v = v := by
  unfold toFloat
  simp only [floatShift_small _ h, pow_zero, Nat.div_one, Nat.mod_one, mul_zero, mul_one]
  simp only [Bool.false_eq_true, if_false, Nat.cast_natAbs, Int.cast_abs, Int.cast_id,
    Int.sign_mul_abs, zero_lt_one, Nat.not_lt_zero, decide_False, zero_ne_one,
    Bool.false_and, Bool.or_self, Nat.lt_irrefl]

/-- What `screen_present` does in a state whose `window.texture` is live and
`window.rect` is `(0, 0, texW, texH)` for the size of that texture: the
render target is set to the window, one copy is made from `window.texture`
with that rectangle as source and destination, the frame is presented; on
return the render target is `window.texture` and the render scale is
`window.scale` as a `float`, which is `window.scale` itself below 2^24. -/
theorem screen_present_whole_texture (s : State) (h : TextureFits s) :
    ∃ t texW texH s1, s.window.texture = some t ∧ s.sdl.sizeOf t = some (texW, texH) ∧
      s.window.rect = ⟨0, 0, texW, texH⟩ ∧
      screen_present s = .ok (s1, []) ∧ s1.window = s.window ∧
      s1.sdl.calls = s.sdl.calls ++
        [.SDL_SetRenderTarget s.window.renderer none,
         .SDL_RenderCopy s.window.renderer (some t) ⟨0, 0, texW, texH⟩ ⟨0, 0, texW, texH⟩,
         .SDL_RenderPresent s.window.renderer,
         .SDL_SetRenderTarget s.window.renderer (some t),
         .SDL_RenderSetScale s.window.renderer
            (toFloat s.window.scale) (toFloat s.window.scale)] ∧
      s1.sdl.target = some t ∧
      s1.sdl.scale = (toFloat s.window.scale, toFloat s.window.scale) ∧
      (s.window.scale.natAbs < 16777216 → toFloat s.window.scale = s.window.scale) := by
  obtain ⟨hx, hy, t, ht, hsz⟩ := h
  have hrect : s.window.rect = ⟨0, 0, s.window.rect.w, s.window.rect.h⟩ := by
    cases hrc : s.window.rect with
    | mk x y w h =>
      rw [hrc] at hx hy
      simp only at hx hy
      rw [hx, hy]
  refine ⟨t, s.window.rect.w, s.window.rect.h, _, ht, hsz, hrect, rfl, rfl, ?_, ?_, rfl,
    toFloat_small _⟩
  · rw [← hrect, ← ht]
    simp [SDL_RenderSetScale, SDL_SetRenderTarget, SDL_RenderPresent, SDL_RenderCopy, Sdl.log]
  · rw [← ht]
    rfl

/-! ## Where drawing goes -/

/-- Every call but `screen_resize` and `screen_present` leaves the render
target alone. -/
theorem step_target_frame (fc : FontChar) (s : State) (op : Op) (r : State × List LuaValue)
    (h : step fc s op = .ok r) (hop : ∀ a b ok, op ≠ .resize a b ok) (hp : op ≠ .present) :
    r.1.sdl.target = s.sdl.target := by
  cases op
  case resize a b ok => exact absurd rfl (hop a b ok)
  case present => exact absurd rfl hp
  case write str x y =>
    simp only [step, screen_write, screen_write.loop_eq] at h
    cases h
    rfl
  all_goals
    simp only [step, screen_getWidth, screen_getHeight, screen_getScale, screen_setScale,
      screen_colour, screen_pixel, screen_rect, screen_clear, screen_char,
      screen_loadFont] at h
    (try split at h)
    all_goals first
      | cases h
        rfl
      | cases h

/-- A run without `screen_resize` keeps the texture pointer and the live textures. -/
theorem run_frame (fc : FontChar) (ops : List Op) (s s1 : State)
    (h : run fc s ops = .ok s1) (hops : ∀ a b ok, Op.resize a b ok ∉ ops) :
    s1.window.texture = s.window.texture ∧ s1.sdl.textures = s.sdl.textures := by
  induction ops generalizing s with
  | nil => cases h; exact ⟨rfl, rfl⟩
  | cons op ops ih =>
    simp only [run] at h
    split at h
    · rename_i r hr
      obtain ⟨h1, h2⟩ := ih r.1 h (fun a b ok hm => hops a b ok (List.mem_cons_of_mem _ hm))
      obtain ⟨_, h3, h4⟩ := step_frame fc s op r hr
        (fun a b ok he => hops a b ok (he ▸ List.mem_cons_self _ _))
      exact ⟨h1.trans h3, h2.trans h4⟩
    · cases h

/-- A run without `screen_resize` and `screen_present` keeps the render target. -/
theorem run_target_frame (fc : FontChar) (ops : List Op) (s s1 : State)
    (h : run fc s ops = .ok s1) (hops : ∀ a b ok, Op.resize a b ok ∉ ops)
    (hp : Op.present ∉ ops) : s1.sdl.target = s.sdl.target := by
  induction ops generalizing s with
  | nil => cases h; rfl
  | cons op ops ih =>
    simp only [run] at h
    split at h
    · rename_i r hr
      have h1 := ih r.1 h (fun a b ok hm => hops a b ok (List.mem_cons_of_mem _ hm))
        (fun hm => hp (List.mem_cons_of_mem _ hm))
      have h2 := step_target_frame fc s op r hr
        (fun a b ok he => hops a b ok (he ▸ List.mem_cons_self _ _))
        (fun he => hp (he ▸ List.mem_cons_self _ _))
      exact h1.trans h2
    · cases h

/-- C10, as stated, fails: after `screen_present` and then a `screen_resize`
whose texture is created, the render target is the window (null) while
`window.texture` is the new texture. -/
theorem target_after_resize :
    ∃ s, session fixedFont (some 100) (some 200) true [.present, .resize 300 200 true] = .ok s ∧
      s.sdl.target = none ∧ s.window.texture = some 2 ∧ s.sdl.sizeOf 2 = some (300, 200) :=
  ⟨_, rfl, rfl, rfl, rfl⟩

/-- C10 (amended): take any state in which `window.texture` is a live texture
`t`.  When `screen_present` returns, and after every further sequence of
exposed operations that contains no `screen_resize`, the render target is
`t`, which is still live and still `window.texture`: the drawing functions
draw into the texture.  A `screen_resize` for which the library creates the
new texture returns with the render target on the window (null) and
`window.texture` the new, live texture; the render target stays on the
window through every further sequence of exposed operations that contains
neither `screen_present` nor `screen_resize`. -/
theorem render_target_after_present (fc : FontChar) (s s1 : State) (t : Nat)
    (sz : Int × Int) (post : List Op)
    (ht : s.window.texture = some t) (hsz : s.sdl.sizeOf t = some sz)
    (hpost : ∀ a b ok, Op.resize a b ok ∉ post)
    (hrun : run fc s (.present :: post) = .ok s1) :
    (s1.sdl.target = some t ∧ s1.window.texture = some t ∧ s1.sdl.sizeOf t = some sz) ∧
    (∀ a b, ∃ s2, screen_resize s a b true = .ok (s2, []) ∧
      s2.sdl.target = none ∧ s2.window.texture = some s.sdl.fresh ∧
      s2.sdl.sizeOf s.sdl.fresh = some (toInt a, toInt b) ∧
      ∀ ops s3, (∀ c d ok, Op.resize c d ok ∉ ops) → Op.present ∉ ops →
        run fc s2 ops = .ok s3 →
        s3.sdl.target = none ∧ s3.window.texture = some s.sdl.fresh ∧
        s3.sdl.sizeOf s.sdl.fresh = some (toInt a, toInt b)) := by
  constructor
  · simp only [run] at hrun
    split at hrun
    · rename_i r hr
      have hr1 : r.1.sdl.target = r.1.window.texture :=
        step_target fc s .present r hr (fun _ _ _ => by simp) (Or.inl rfl)
      obtain ⟨_, hr2, hr3⟩ := step_frame fc s .present r hr (fun _ _ _ => by simp)
      have h1 := run_target fc post r.1 s1 hrun hpost hr1
      obtain ⟨h2, h3⟩ := run_frame fc post r.1 s1 hrun hpost
      have htex : s1.window.texture = some t := by rw [h2, hr2, ht]
      refine ⟨by rw [h1, htex], htex, ?_⟩
      unfold Sdl.sizeOf
      rw [h3, hr3]
      exact hsz
    · cases hrun
  · intro a b
    obtain ⟨s2, h1, _, _, _, _, _, h2, _, h3, _⟩ :=
      screen_resize_created s a b t sz.1 sz.2 ht hsz
    refine ⟨s2, h1, screen_resize_target s a b true _ h1, h2, h3, ?_⟩
    intro ops s3 hops hp hrun3
    obtain ⟨h4, h5⟩ := run_frame fc ops s2 s3 hrun3 hops
    refine ⟨?_, by rw [h4, h2], ?_⟩
    · rw [run_target_frame fc ops s2 s3 hrun3 hops hp]
      exact screen_resize_target s a b true _ h1
    · unfold Sdl.sizeOf
      rw [h5]
      exact h3

/-- The amended C10 after the load: `present`, then drawing calls, leave the
render target on texture 1; a `screen_resize` to 300 x 200 followed by
drawing calls leaves it on the window while `window.texture` is texture 2. -/
theorem render_target_after_present_witness :
    (∃ s1, run fixedFont loaded [.present, .colour 0 none none none, .clear, .pixel 3 4,
        .write [72, 105] 0 0] = .ok s1 ∧
      s1.sdl.target = some 1 ∧ s1.window.texture = some 1 ∧
      s1.sdl.sizeOf 1 = some (600, 400)) ∧
    (∃ s3, run fixedFont loaded [.resize 300 200 true, .clear, .pixel 3 4] = .ok s3 ∧
      s3.sdl.target = none ∧ s3.window.texture = some 2 ∧
      s3.sdl.sizeOf 2 = some (300, 200)) := by
  have hok : (run fixedFont loaded [.present, .colour 0 none none none, .clear, .pixel 3 4,
      .write [72, 105] 0 0]).toBool = true := by decide
  cases hrun : run fixedFont loaded [.present, .colour 0 none none none, .clear, .pixel 3 4,
      .write [72, 105] 0 0] with
  | error e => rw [hrun] at hok; cases hok
  | ok s1 =>
    have h := render_target_after_present fixedFont loaded s1 1 (600, 400)
      [.colour 0 none none none, .clear, .pixel 3 4, .write [72, 105] 0 0]
      (by decide) (by decide) (by intro a b ok hm; simp at hm) hrun
    refine ⟨⟨s1, rfl, h.1⟩, ?_⟩
    obtain ⟨s2, h1, _, _, _, h2⟩ := h.2 300 200
    have hok3 : (run fixedFont s2 [.clear, .pixel 3 4]).toBool = true := by
      simp [run, step, screen_clear, screen_pixel, Except.toBool]
    cases hrun3 : run fixedFont s2 [.clear, .pixel 3 4] with
    | error e => rw [hrun3] at hok3; cases hok3
    | ok s3 =>
      have h3 := h2 [.clear, .pixel 3 4] s3 (by intro c d ok hm; simp at hm)
        (by simp) hrun3
      refine ⟨s3, ?_, h3⟩
      simp only [run, step, h1]
      exact hrun3

end MoonBox
